import Mathlib

/-!
Shallow embedding of the order-management backend (Express + PostgreSQL).

Sources embedded here:
  * `src/database/schema.sql` — table shapes, the seeded service-tier catalog,
    the `generate_tracking_id` / `set_tracking_id` functions and the
    `add_status_history` trigger;
  * `src/unnamed/part_002` (the order router) — `POST /create` (total
    computation and order snapshot), `POST /capture-payment`,
    `POST /webhook/paypal` with `handlePaymentDenied`, `POST /test-order`,
    `POST /create-payment-intent`;
  * `src/middleware/validation.js` — `validateStatusUpdate`, and the admin
    router's `PUT /orders/:id/status` handler;
  * `src/unnamed/part_000` — `beginTransaction` / `commitTransaction` /
    `rollbackTransaction` (commit and rollback both release the pooled
    client in a `finally`; a handler path that returns without calling
    either keeps the connection checked out).

Modelling conventions:
  * SQL `NUMERIC(10,2)` amounts and JavaScript numbers are modelled as exact
    rationals (`ℚ`).  All amounts that flow through the handlers are decimal
    values with two fractional digits and magnitude far below 2^53, where
    IEEE-754 double arithmetic performed by the JavaScript code is exact for
    the comparisons the handlers make (a tolerance check at granularity
    0.01).  For the one claim where exactness of the arithmetic is itself
    the property (the order total), rounding is modelled explicitly through
    a correct-rounding hypothesis on the multiplication.
  * A row UPDATE on `orders` fires the `AFTER UPDATE` trigger
    `add_status_history` for every updated row whose status changed, exactly
    as in `schema.sql`.
  * A transaction is all-or-nothing: a handler either returns the database
    produced by its committed writes, or (on rollback) the database it
    started from.
  * Strings rendered by SQL (`TO_CHAR`, `LPAD`, `::TEXT`) are modelled over
    `List Char`.
-/

namespace SeoServer

/-- `order_status` enum from `schema.sql`. -/
inductive OrderStatus
  | pending
  | confirmed
  | in_progress
  | completed
  | cancelled
  deriving DecidableEq, Repr

/-- `payment_status` enum from `schema.sql`. -/
inductive PayStatus
  | pending
  | paid
  | failed
  | refunded
  deriving DecidableEq, Repr

/-- `payment_method` enum from `schema.sql`. -/
inductive PayMethod
  | paypal
  | stripe
  | bank_transfer
  deriving DecidableEq, Repr

/-- A `service_tiers` row joined with its parent service's name and active
flag, as selected by the routers
(`SELECT st.*, s.name as service_name FROM service_tiers st JOIN services s …`). -/
structure ServiceTier where
  id : String
  serviceName : String
  name : String
  price : ℚ
  deliveryDays : ℕ
  isActive : Bool
  serviceActive : Bool
  deriving DecidableEq, Repr

/-- A `customers` row (timestamps omitted). -/
structure Customer where
  id : ℕ
  name : String
  email : String
  website : String
  phone : Option String
  deriving DecidableEq, Repr

/-- An `orders` row (timestamps and free-text `notes` column omitted). -/
structure Order where
  id : ℕ
  trackingId : List Char
  customerId : ℕ
  serviceTierId : String
  serviceName : String
  serviceTierName : String
  servicePrice : ℚ
  deliveryDays : ℕ
  keywords : String
  quantity : ℕ
  totalAmount : ℚ
  status : OrderStatus
  paymentStatus : PayStatus
  deriving DecidableEq, Repr

/-- A `payments` row (timestamps omitted; `gateway_response` kept as the raw
payload text). -/
structure Payment where
  orderId : ℕ
  paymentMethod : PayMethod
  paymentId : String
  payerId : Option String
  amount : ℚ
  currency : String
  status : PayStatus
  gatewayResponse : Option String
  deriving DecidableEq, Repr

/-- An `order_status_history` row (timestamp omitted; `changed_by` is `none`
for system-generated entries). -/
structure HistoryEntry where
  orderId : ℕ
  status : OrderStatus
  notes : String
  changedBy : Option ℕ
  deriving DecidableEq, Repr

/-- The database state touched by the handlers.  `orderSeq` is the next value
of `orders_id_seq` (PostgreSQL sequences start at 1); `customerSeq` likewise
for `customers_id_seq`.  History lists are kept in chronological order, new
rows appended at the end. -/
structure DB where
  tiers : List ServiceTier
  customers : List Customer
  orders : List Order
  payments : List Payment
  history : List HistoryEntry
  orderSeq : ℕ
  customerSeq : ℕ
  deriving DecidableEq, Repr

/-- `SELECT … FROM orders WHERE id = $1` (first matching row). -/
def findOrder (db : DB) (oid : ℕ) : Option Order :=
  db.orders.find? (fun o => o.id == oid)

/-- The history rows inserted by the `add_status_history` trigger
(`schema.sql`): for each updated `orders` row whose status changed,
`INSERT INTO order_status_history (order_id, status, notes)
VALUES (NEW.id, NEW.status, 'Status changed automatically')`. -/
def autoHistoryRows (rows : List Order) (oid : ℕ) (f : Order → Order) : List HistoryEntry :=
  (rows.filter (fun r => r.id == oid && (f r).status != r.status)).map
    (fun r => { orderId := (f r).id
                status := (f r).status
                notes := "Status changed automatically"
                changedBy := none })

/-- `UPDATE orders SET … WHERE id = $1`, including the `AFTER UPDATE` firing
of `add_status_history` for each updated row whose status changed. -/
def applyOrdersUpdate (db : DB) (oid : ℕ) (f : Order → Order) : DB :=
  { db with
    orders := db.orders.map (fun r => if r.id == oid then f r else r)
    history := db.history ++ autoHistoryRows db.orders oid f }

/-! Helper lemmas about `applyOrdersUpdate` under the primary-key fact that
exactly one `orders` row carries the updated id. -/

/-- If no row matches the id, the UPDATE leaves the table unchanged. -/
theorem filter_nil_map_update (l : List Order) (oid : ℕ) (f : Order → Order)
    (H : l.filter (fun r => r.id == oid) = []) :
    l.map (fun r => if r.id == oid then f r else r) = l := by
  induction l with
  | nil => rfl
  | cons r rs ih =>
    rw [List.filter_cons] at H
    by_cases h : (r.id == oid) = true
    · rw [if_pos h] at H
      exact absurd H (by simp)
    · rw [if_neg h] at H
      simp only [List.map_cons, if_neg h, ih H]

/-- If exactly one row matches the id and the update preserves the id, the
updated table still has the transformed row as the first (only) match. -/
theorem find?_map_update (l : List Order) (oid : ℕ) (f : Order → Order)
    (hf : ∀ r, (f r).id = r.id) (o : Order)
    (H : l.filter (fun r => r.id == oid) = [o]) :
    (l.map (fun r => if r.id == oid then f r else r)).find? (fun r => r.id == oid)
      = some (f o) := by
  induction l with
  | nil => simp at H
  | cons r rs ih =>
    rw [List.filter_cons] at H
    by_cases h : (r.id == oid) = true
    · rw [if_pos h] at H
      simp only [List.cons.injEq] at H
      obtain ⟨heq, hrest⟩ := H
      have hp : ((f r).id == oid) = true := by rw [hf r]; exact h
      simp only [List.map_cons, if_pos h]
      simp only [List.find?, hp]
      rw [heq]
    · rw [if_neg h] at H
      have hb : (r.id == oid) = false := eq_false_of_ne_true h
      simp only [List.map_cons, if_neg h]
      simp only [List.find?, hb]
      exact ih H

/-- If exactly one row matches the id, the trigger inserts exactly one
automatic history row when that row's status changes, and none otherwise. -/
theorem autoHistoryRows_single (l : List Order) (oid : ℕ) (f : Order → Order)
    (o : Order) (H : l.filter (fun r => r.id == oid) = [o]) :
    autoHistoryRows l oid f
      = if (f o).status = o.status then []
        else [{ orderId := (f o).id
                status := (f o).status
                notes := "Status changed automatically"
                changedBy := none }] := by
  unfold autoHistoryRows
  have hcongr : l.filter (fun r => r.id == oid && (f r).status != r.status)
      = l.filter (fun r => ((f r).status != r.status) && (r.id == oid)) := by
    apply List.filter_congr
    intro a _
    exact Bool.and_comm _ _
  rw [hcongr, ← List.filter_filter, H]
  by_cases h : (f o).status = o.status
  · simp [List.filter_cons, h]
  · simp [List.filter_cons, h]

/-- If exactly one row matches the id and the update fixes that row, the
table is unchanged. -/
theorem map_update_eq_self (l : List Order) (oid : ℕ) (f : Order → Order)
    (o : Order) (H : l.filter (fun r => r.id == oid) = [o]) (hfo : f o = o) :
    l.map (fun r => if r.id == oid then f r else r) = l := by
  induction l with
  | nil => rfl
  | cons r rs ih =>
    rw [List.filter_cons] at H
    by_cases h : (r.id == oid) = true
    · rw [if_pos h] at H
      simp only [List.cons.injEq] at H
      obtain ⟨heq, hrest⟩ := H
      have hfr : f r = r := by rw [heq, hfo]
      simp only [List.map_cons, if_pos h, hfr, filter_nil_map_update rs oid f hrest]
    · rw [if_neg h] at H
      simp only [List.map_cons, if_neg h, ih H]

/-- If the filter of a list under `p` is exactly `[o]`, then `o` satisfies `p`. -/
theorem filter_single_pred {α : Type} (l : List α) (p : α → Bool) (o : α)
    (H : l.filter p = [o]) : p o = true := by
  have hmem : o ∈ l.filter p := by rw [H]; exact List.mem_singleton.mpr rfl
  exact (List.mem_filter.mp hmem).2

/-- If the filter of a list under `p` is exactly `[o]`, then `o` is the first
match found by `find?`. -/
theorem filter_single_find? {α : Type} (l : List α) (p : α → Bool) (o : α)
    (H : l.filter p = [o]) : l.find? p = some o := by
  induction l with
  | nil => simp at H
  | cons r rs ih =>
    rw [List.filter_cons] at H
    by_cases h : p r = true
    · rw [if_pos h] at H
      simp only [List.cons.injEq] at H
      simp only [List.find?, h]
      rw [H.1]
    · rw [if_neg h] at H
      have hb : p r = false := eq_false_of_ne_true h
      simp only [List.find?, hb]
      exact ih H

/-- The payment fields `paypalService.extractPaymentInfo` derives from a
successful PayPal capture response (`src/services/paypal.js`), as consumed by
the `POST /capture-payment` handler: the gateway order id, the optional payer
id, and the captured amount and currency. -/
structure PaymentInfo where
  paypalOrderId : String
  payerId : Option String
  amount : ℚ
  currency : String
  deriving DecidableEq, Repr

/-- The four exits of the `POST /capture-payment` handler
(`src/unnamed/part_002`, lines 147-248). -/
inductive CaptureResult
  | orderNotFound
  | captureFailed
  | amountMismatch
  | success
  deriving DecidableEq, Repr

/-- The `POST /capture-payment` handler (`src/unnamed/part_002`, lines
147-248).  The PayPal round-trip (`captureOrder` + `extractPaymentInfo`) is an
external collaborator and enters as the `gateway` argument: `none` when the
capture call throws (the handler's catch block rolls back and answers 500),
`some (info, raw)` when it returns payment info and a raw payload.  The
handler then runs, inside one transaction: the amount-tolerance check
(`Math.abs(paymentInfo.amount - parseFloat(order.total_amount)) > 0.01`), the
`UPDATE orders SET payment_status = 'paid', status = 'confirmed'` (which fires
the `add_status_history` trigger when the status actually changes), the
`INSERT INTO payments`, and the manual `INSERT INTO order_status_history`.
There is no duplicate-delivery check: the handler never looks at existing
`payments` rows. -/
def capturePayment (db : DB) (orderId : ℕ)
    (gateway : Option (PaymentInfo × String)) : CaptureResult × DB :=
  match findOrder db orderId with
  | none => (CaptureResult.orderNotFound, db)
  | some order =>
    match gateway with
    | none => (CaptureResult.captureFailed, db)
    | some (info, raw) =>
      if |info.amount - order.totalAmount| > 1 / 100 then
        (CaptureResult.amountMismatch, db)
      else
        let db1 := applyOrdersUpdate db orderId
          (fun r => { r with paymentStatus := PayStatus.paid
                             status := OrderStatus.confirmed })
        let db2 := { db1 with payments := db1.payments ++
          [({ orderId := orderId
              paymentMethod := PayMethod.paypal
              paymentId := info.paypalOrderId
              payerId := info.payerId
              amount := info.amount
              currency := info.currency
              status := PayStatus.paid
              gatewayResponse := some raw } : Payment)] }
        let db3 := { db2 with history := db2.history ++
          [({ orderId := orderId
              status := OrderStatus.confirmed
              notes := "Payment received and confirmed"
              changedBy := none } : HistoryEntry)] }
        (CaptureResult.success, db3)

/-! Sample rows used to instantiate the theorems on concrete inputs. -/

/-- A pending, unpaid order as created by `POST /create` for the
`monthly-seo-standard` tier (price 450.00, quantity 1). -/
def sampleOrderPending : Order :=
  { id := 1
    trackingId := "SEO-20250131-0002".toList
    customerId := 1
    serviceTierId := "monthly-seo-standard"
    serviceName := "Monthly SEO Packages"
    serviceTierName := "Standard Monthly"
    servicePrice := 450
    deliveryDays := 30
    keywords := "seo growth"
    quantity := 1
    totalAmount := 450
    status := OrderStatus.pending
    paymentStatus := PayStatus.pending }

/-- A database holding the single pending sample order and its creation
history row. -/
def sampleDB : DB :=
  { tiers := []
    customers := [{ id := 1, name := "John Smith", email := "john.smith@example.com"
                    website := "https://johnsmith.com", phone := none }]
    orders := [sampleOrderPending]
    payments := []
    history := [{ orderId := 1, status := OrderStatus.pending
                  notes := "Order created", changedBy := none }]
    orderSeq := 3
    customerSeq := 2 }

/-- Gateway data whose captured amount 449.50 differs from the sample
order's 450.00 total by more than 0.01. -/
def mismatchInfo : PaymentInfo :=
  { paypalOrderId := "PP-MISMATCH", payerId := none, amount := 449.5, currency := "USD" }

/-- C3: a reconciliation call whose gateway-reported amount differs from the
order's stored total by more than 0.01 fails with the amount-mismatch
response, the transaction is rolled back, and the database is left exactly as
it was: no order field changes, no `payments` row, no history row. -/
theorem C3_amount_mismatch_fails_and_leaves_order_untouched
    (db : DB) (oid : ℕ) (o : Order) (info : PaymentInfo) (raw : String)
    (hfind : findOrder db oid = some o)
    (hmis : |info.amount - o.totalAmount| > 1 / 100) :
    capturePayment db oid (some (info, raw)) = (CaptureResult.amountMismatch, db) := by
  unfold capturePayment
  rw [hfind]
  simp only [gt_iff_lt] at hmis
  rw [one_div] at hmis
  simp [hmis]

/-- Witness for C3 at a concrete input: the sample 450.00 order against a
449.50 capture. -/
theorem C3_amount_mismatch_witness :
    capturePayment sampleDB 1 (some (mismatchInfo, "raw-mismatch-payload"))
      = (CaptureResult.amountMismatch, sampleDB) :=
  C3_amount_mismatch_fails_and_leaves_order_untouched sampleDB 1 sampleOrderPending
    mismatchInfo "raw-mismatch-payload" rfl
    (by
      show |mismatchInfo.amount - sampleOrderPending.totalAmount| > 1 / 100
      rw [show mismatchInfo.amount - sampleOrderPending.totalAmount = -(1 / 2) from by
        norm_num [mismatchInfo, sampleOrderPending]]
      rw [abs_neg, abs_of_nonneg (by norm_num : (0 : ℚ) ≤ 1 / 2)]
      norm_num)

/-- The updated row is the only one matching its id, so its id equals the
searched id. -/
theorem filter_single_id (l : List Order) (oid : ℕ) (o : Order)
    (H : l.filter (fun r => r.id == oid) = [o]) : o.id = oid := by
  simpa using filter_single_pred l (fun r => r.id == oid) o H

/-- C4: on the first successful reconciliation of an existing order with a
matching amount, the handler — within one transaction — inserts exactly one
`payments` row with status `paid` carrying the method, the gateway reference,
the payer id, the amount, the currency and the raw gateway payload verbatim;
sets the order's payment status to `paid`; transitions its status to
`confirmed`; and appends a history entry with status `confirmed` and the note
"Payment received and confirmed" (the status-changing UPDATE additionally
fires the automatic trigger row first).  All of it is committed together:
the returned database is the one holding every one of these writes. -/
theorem C4_first_reconciliation_commits_payment_status_and_history
    (db : DB) (oid : ℕ) (o : Order) (info : PaymentInfo) (raw : String)
    (H : db.orders.filter (fun r => r.id == oid) = [o])
    (hpending : o.status = OrderStatus.pending)
    (hamt : ¬ |info.amount - o.totalAmount| > 1 / 100) :
    (capturePayment db oid (some (info, raw))).1 = CaptureResult.success ∧
    (capturePayment db oid (some (info, raw))).2.payments
      = db.payments ++
        [{ orderId := oid
           paymentMethod := PayMethod.paypal
           paymentId := info.paypalOrderId
           payerId := info.payerId
           amount := info.amount
           currency := info.currency
           status := PayStatus.paid
           gatewayResponse := some raw }] ∧
    findOrder (capturePayment db oid (some (info, raw))).2 oid
      = some { o with status := OrderStatus.confirmed
                      paymentStatus := PayStatus.paid } ∧
    (capturePayment db oid (some (info, raw))).2.history
      = db.history ++
        [{ orderId := oid
           status := OrderStatus.confirmed
           notes := "Status changed automatically"
           changedBy := none },
         { orderId := oid
           status := OrderStatus.confirmed
           notes := "Payment received and confirmed"
           changedBy := none }] := by
  have hfind : findOrder db oid = some o := filter_single_find? _ _ _ H
  have hoid : o.id = oid := filter_single_id _ _ _ H
  have hffind := find?_map_update db.orders oid
      (fun r => { r with paymentStatus := PayStatus.paid
                         status := OrderStatus.confirmed })
      (fun r => rfl) o H
  have hauto := autoHistoryRows_single db.orders oid
      (fun r => { r with paymentStatus := PayStatus.paid
                         status := OrderStatus.confirmed }) o H
  rw [if_neg (by simp [hpending])] at hauto
  refine ⟨?_, ?_, ?_, ?_⟩
  · simp only [capturePayment, hfind]
    rw [if_neg hamt]
  · simp only [capturePayment, hfind]
    rw [if_neg hamt]
    simp [applyOrdersUpdate]
  · simp only [capturePayment, hfind]
    rw [if_neg hamt]
    simp only [applyOrdersUpdate, findOrder]
    exact hffind
  · simp only [capturePayment, hfind]
    rw [if_neg hamt]
    simp only [applyOrdersUpdate]
    rw [hauto]
    simp [hoid]

/-- Witness for C4: reconciling the pending sample order at the exact total. -/
theorem C4_first_reconciliation_witness :
    (capturePayment sampleDB 1
        (some ({ paypalOrderId := "PP-OK", payerId := some "PAYER-7"
                 amount := 450, currency := "USD" }, "raw-capture"))).1
      = CaptureResult.success ∧
    (capturePayment sampleDB 1
        (some ({ paypalOrderId := "PP-OK", payerId := some "PAYER-7"
                 amount := 450, currency := "USD" }, "raw-capture"))).2.payments
      = sampleDB.payments ++
        [{ orderId := 1
           paymentMethod := PayMethod.paypal
           paymentId := "PP-OK"
           payerId := some "PAYER-7"
           amount := 450
           currency := "USD"
           status := PayStatus.paid
           gatewayResponse := some "raw-capture" }] ∧
    findOrder (capturePayment sampleDB 1
        (some ({ paypalOrderId := "PP-OK", payerId := some "PAYER-7"
                 amount := 450, currency := "USD" }, "raw-capture"))).2 1
      = some { sampleOrderPending with status := OrderStatus.confirmed
                                       paymentStatus := PayStatus.paid } ∧
    (capturePayment sampleDB 1
        (some ({ paypalOrderId := "PP-OK", payerId := some "PAYER-7"
                 amount := 450, currency := "USD" }, "raw-capture"))).2.history
      = sampleDB.history ++
        [{ orderId := 1
           status := OrderStatus.confirmed
           notes := "Status changed automatically"
           changedBy := none },
         { orderId := 1
           status := OrderStatus.confirmed
           notes := "Payment received and confirmed"
           changedBy := none }] :=
  C4_first_reconciliation_commits_payment_status_and_history sampleDB 1
    sampleOrderPending
    { paypalOrderId := "PP-OK", payerId := some "PAYER-7"
      amount := 450, currency := "USD" } "raw-capture"
    rfl rfl
    (by
      show ¬ |(450 : ℚ) - sampleOrderPending.totalAmount| > 1 / 100
      norm_num [sampleOrderPending])

/-- C9: when an order exists and the captured amount is within the 0.01
tolerance of its total, the capture handler sets the order's status to
`confirmed` and its payment status to `paid` unconditionally — the current
status (which may be `in_progress`, `completed` or `cancelled`) is never
consulted and no state-machine check is applied. -/
theorem C9_capture_sets_confirmed_paid_unconditionally
    (db : DB) (oid : ℕ) (o : Order) (info : PaymentInfo) (raw : String)
    (H : db.orders.filter (fun r => r.id == oid) = [o])
    (hamt : ¬ |info.amount - o.totalAmount| > 1 / 100) :
    (capturePayment db oid (some (info, raw))).1 = CaptureResult.success ∧
    findOrder (capturePayment db oid (some (info, raw))).2 oid
      = some { o with status := OrderStatus.confirmed
                      paymentStatus := PayStatus.paid } := by
  have hfind : findOrder db oid = some o := filter_single_find? _ _ _ H
  have hffind := find?_map_update db.orders oid
      (fun r => { r with paymentStatus := PayStatus.paid
                         status := OrderStatus.confirmed })
      (fun r => rfl) o H
  refine ⟨?_, ?_⟩
  · simp only [capturePayment, hfind]
    rw [if_neg hamt]
  · simp only [capturePayment, hfind]
    rw [if_neg hamt]
    simp only [applyOrdersUpdate, findOrder]
    exact hffind

/-- A completed order: its fulfillment already finished. -/
def completedOrder : Order :=
  { sampleOrderPending with id := 9
                            status := OrderStatus.completed
                            paymentStatus := PayStatus.paid }

/-- A database holding only the completed order. -/
def completedDB : DB :=
  { sampleDB with orders := [completedOrder]
                  history := [{ orderId := 9, status := OrderStatus.completed
                                notes := "done", changedBy := some 1 }] }

/-- Witness for C9: capturing against an order that is already `completed`
still flips it back to `confirmed`/`paid`. -/
theorem C9_capture_unconditional_witness :
    (capturePayment completedDB 9
        (some ({ paypalOrderId := "PP-LATE", payerId := none
                 amount := 450, currency := "USD" }, "raw-late"))).1
      = CaptureResult.success ∧
    findOrder (capturePayment completedDB 9
        (some ({ paypalOrderId := "PP-LATE", payerId := none
                 amount := 450, currency := "USD" }, "raw-late"))).2 9
      = some { completedOrder with status := OrderStatus.confirmed
                                   paymentStatus := PayStatus.paid } :=
  C9_capture_sets_confirmed_paid_unconditionally completedDB 9 completedOrder
    { paypalOrderId := "PP-LATE", payerId := none, amount := 450, currency := "USD" }
    "raw-late" rfl
    (by
      show ¬ |(450 : ℚ) - completedOrder.totalAmount| > 1 / 100
      norm_num [completedOrder, sampleOrderPending])

/-- An order already reconciled: `confirmed` and `paid`. -/
def paidOrder : Order :=
  { sampleOrderPending with status := OrderStatus.confirmed
                            paymentStatus := PayStatus.paid }

/-- The `payments` row recorded by the first reconciliation of `paidOrder`. -/
def firstPayment : Payment :=
  { orderId := 1
    paymentMethod := PayMethod.paypal
    paymentId := "PP-REF-1"
    payerId := some "PAYER-7"
    amount := 450
    currency := "USD"
    status := PayStatus.paid
    gatewayResponse := some "raw-first-capture" }

/-- Database state right after the first successful reconciliation of
`paidOrder`: one paid `payments` row and the three history rows. -/
def reconciledDB : DB :=
  { sampleDB with
      orders := [paidOrder]
      payments := [firstPayment]
      history := [{ orderId := 1, status := OrderStatus.pending
                    notes := "Order created", changedBy := none },
                  { orderId := 1, status := OrderStatus.confirmed
                    notes := "Status changed automatically", changedBy := none },
                  { orderId := 1, status := OrderStatus.confirmed
                    notes := "Payment received and confirmed", changedBy := none }] }

/-- The same gateway data delivered a second time: same reference
`PP-REF-1`, same payer, same amount. -/
def duplicateInfo : PaymentInfo :=
  { paypalOrderId := "PP-REF-1", payerId := some "PAYER-7"
    amount := 450, currency := "USD" }

/-- Counterexample to C1: the order is already `paid` with a `payments` row
carrying the very same gateway reference, yet re-running the capture handler
with the identical reference and amount returns success AND inserts a second
`payments` row AND appends a duplicate "Payment received and confirmed"
history entry — the handler has no duplicate-delivery check at all. -/
theorem C1_counterexample_duplicate_capture_mutates :
    (capturePayment reconciledDB 1 (some (duplicateInfo, "raw-second-capture"))).1
      = CaptureResult.success ∧
    (capturePayment reconciledDB 1 (some (duplicateInfo, "raw-second-capture"))).2.payments.length
      = 2 ∧
    (capturePayment reconciledDB 1 (some (duplicateInfo, "raw-second-capture"))).2.history.length
      = reconciledDB.history.length + 1 := by
  have hamt : ¬ |duplicateInfo.amount - paidOrder.totalAmount| > 1 / 100 := by
    norm_num [duplicateInfo, paidOrder, sampleOrderPending]
  have hfind : findOrder reconciledDB 1 = some paidOrder := rfl
  refine ⟨?_, ?_, ?_⟩ <;> (simp only [capturePayment, hfind]; rw [if_neg hamt]; try rfl)

/-- C1 amended: with a `paid` order whose `payments` row already carries the
same gateway reference, a second capture call with matching reference and
amount returns success and leaves the order rows (status, payment status)
unchanged — but, lacking any idempotency check, it inserts a second
`payments` row and appends a duplicate "Payment received and confirmed"
history entry (the automatic trigger stays silent because the status value
does not change). -/
theorem C1_amended_duplicate_capture_duplicates_rows
    (db : DB) (oid : ℕ) (o : Order) (p : Payment) (info : PaymentInfo) (raw : String)
    (H : db.orders.filter (fun r => r.id == oid) = [o])
    (hpaid : o.paymentStatus = PayStatus.paid)
    (hconf : o.status = OrderStatus.confirmed)
    (hp : p ∈ db.payments) (hpOrder : p.orderId = oid)
    (hpRef : p.paymentId = info.paypalOrderId) (hpStatus : p.status = PayStatus.paid)
    (hamt : ¬ |info.amount - o.totalAmount| > 1 / 100) :
    (capturePayment db oid (some (info, raw))).1 = CaptureResult.success ∧
    (capturePayment db oid (some (info, raw))).2.orders = db.orders ∧
    (capturePayment db oid (some (info, raw))).2.payments
      = db.payments ++
        [{ orderId := oid
           paymentMethod := PayMethod.paypal
           paymentId := info.paypalOrderId
           payerId := info.payerId
           amount := info.amount
           currency := info.currency
           status := PayStatus.paid
           gatewayResponse := some raw }] ∧
    (capturePayment db oid (some (info, raw))).2.history
      = db.history ++
        [{ orderId := oid
           status := OrderStatus.confirmed
           notes := "Payment received and confirmed"
           changedBy := none }] := by
  have hfind : findOrder db oid = some o := filter_single_find? _ _ _ H
  have hfo : (fun r => { r with paymentStatus := PayStatus.paid
                                status := OrderStatus.confirmed }) o = o := by
    cases o
    simp_all
  have horders := map_update_eq_self db.orders oid
      (fun r => { r with paymentStatus := PayStatus.paid
                         status := OrderStatus.confirmed }) o H hfo
  have hauto := autoHistoryRows_single db.orders oid
      (fun r => { r with paymentStatus := PayStatus.paid
                         status := OrderStatus.confirmed }) o H
  rw [if_pos (by simp [hconf])] at hauto
  refine ⟨?_, ?_, ?_, ?_⟩
  · simp only [capturePayment, hfind]
    rw [if_neg hamt]
  · simp only [capturePayment, hfind]
    rw [if_neg hamt]
    simp only [applyOrdersUpdate]
    exact horders
  · simp only [capturePayment, hfind]
    rw [if_neg hamt]
    simp [applyOrdersUpdate]
  · simp only [capturePayment, hfind]
    rw [if_neg hamt]
    simp only [applyOrdersUpdate]
    rw [hauto]
    simp

/-- Witness for the amended C1 at the concrete duplicate-delivery state. -/
theorem C1_amended_witness :
    (capturePayment reconciledDB 1 (some (duplicateInfo, "raw-second-capture"))).1
      = CaptureResult.success ∧
    (capturePayment reconciledDB 1 (some (duplicateInfo, "raw-second-capture"))).2.orders
      = reconciledDB.orders ∧
    (capturePayment reconciledDB 1 (some (duplicateInfo, "raw-second-capture"))).2.payments
      = reconciledDB.payments ++
        [{ orderId := 1
           paymentMethod := PayMethod.paypal
           paymentId := "PP-REF-1"
           payerId := some "PAYER-7"
           amount := 450
           currency := "USD"
           status := PayStatus.paid
           gatewayResponse := some "raw-second-capture" }] ∧
    (capturePayment reconciledDB 1 (some (duplicateInfo, "raw-second-capture"))).2.history
      = reconciledDB.history ++
        [{ orderId := 1
           status := OrderStatus.confirmed
           notes := "Payment received and confirmed"
           changedBy := none }] :=
  C1_amended_duplicate_capture_duplicates_rows reconciledDB 1 paidOrder firstPayment
    duplicateInfo "raw-second-capture" rfl rfl rfl
    (by simp [reconciledDB, sampleDB]) rfl rfl rfl
    (by
      show ¬ |duplicateInfo.amount - paidOrder.totalAmount| > 1 / 100
      norm_num [duplicateInfo, paidOrder, sampleOrderPending])

/-- The status-value check of `validateStatusUpdate`
(`src/middleware/validation.js`, lines 78-94):
`body('status').isIn(['pending', 'confirmed', 'in_progress', 'completed',
'cancelled'])`, combined with the cast to the `order_status` enum.  Any
other string is rejected with a 400 validation error; the five member
strings map to their enum values.  No relation between the current and the
requested status is checked anywhere. -/
def statusOfString (s : String) : Option OrderStatus :=
  if s = "pending" then some OrderStatus.pending
  else if s = "confirmed" then some OrderStatus.confirmed
  else if s = "in_progress" then some OrderStatus.in_progress
  else if s = "completed" then some OrderStatus.completed
  else if s = "cancelled" then some OrderStatus.cancelled
  else none

/-- The three exits of `PUT /orders/:id/status`. -/
inductive StatusUpdateResult
  | invalidStatus
  | notFound
  | success
  deriving DecidableEq, Repr

/-- The admin `PUT /orders/:id/status` handler (admin router, lines 588-667):
after `validateStatusUpdate`, it loads the order (404 when absent), then runs
`UPDATE orders SET status = $1 … WHERE id = $2` — firing the automatic
history trigger when the status value changes — and inserts its own history
row with the admin's id, all in one transaction.  The handler never compares
the requested status with the current one: there is no transition-legality
check and no InvalidTransition error anywhere in the repository. -/
def updateOrderStatusRoute (db : DB) (oid : ℕ) (statusStr : String)
    (notes : String) (adminId : ℕ) : StatusUpdateResult × DB :=
  match statusOfString statusStr with
  | none => (StatusUpdateResult.invalidStatus, db)
  | some st =>
    match findOrder db oid with
    | none => (StatusUpdateResult.notFound, db)
    | some _ =>
      let db1 := applyOrdersUpdate db oid (fun r => { r with status := st })
      let db2 := { db1 with history := db1.history ++
        [({ orderId := oid
            status := st
            notes := notes
            changedBy := some adminId } : HistoryEntry)] }
      (StatusUpdateResult.success, db2)

/-- Counterexample to C2: the order with id 9 is `completed` — a terminal
status — yet the status-update route moves it to `in_progress` and reports
success, instead of failing with an InvalidTransition error and leaving the
order unchanged. -/
theorem C2_counterexample_completed_to_in_progress_succeeds :
    (updateOrderStatusRoute completedDB 9 "in_progress" "restart work" 1).1
      = StatusUpdateResult.success ∧
    findOrder (updateOrderStatusRoute completedDB 9 "in_progress" "restart work" 1).2 9
      = some { completedOrder with status := OrderStatus.in_progress } := by
  exact ⟨rfl, rfl⟩

/-- C2 amended: the status-update route enforces only that the requested
status is one of the five enum values; it applies any such status to any
existing order unconditionally, whatever the current status (terminal ones
included) — the legal-edge table and the InvalidTransition failure do not
exist in the code. -/
theorem C2_amended_status_update_unrestricted
    (db : DB) (oid : ℕ) (o : Order) (s notes : String) (st : OrderStatus) (adminId : ℕ)
    (H : db.orders.filter (fun r => r.id == oid) = [o])
    (hs : statusOfString s = some st) :
    (updateOrderStatusRoute db oid s notes adminId).1 = StatusUpdateResult.success ∧
    findOrder (updateOrderStatusRoute db oid s notes adminId).2 oid
      = some { o with status := st } := by
  have hfind : findOrder db oid = some o := filter_single_find? _ _ _ H
  have hffind := find?_map_update db.orders oid
      (fun r => { r with status := st }) (fun r => rfl) o H
  refine ⟨?_, ?_⟩
  · simp [updateOrderStatusRoute, hs, hfind]
  · simp only [updateOrderStatusRoute, hs, hfind]
    simp only [applyOrdersUpdate, findOrder]
    exact hffind

/-- Witness for the amended C2: a pending order is moved straight to
`completed` (also not a legal edge of the specified state machine) and the
route succeeds. -/
theorem C2_amended_witness :
    (updateOrderStatusRoute sampleDB 1 "completed" "skip ahead" 2).1
      = StatusUpdateResult.success ∧
    findOrder (updateOrderStatusRoute sampleDB 1 "completed" "skip ahead" 2).2 1
      = some { sampleOrderPending with status := OrderStatus.completed } :=
  C2_amended_status_update_unrestricted sampleDB 1 sampleOrderPending
    "completed" "skip ahead" OrderStatus.completed 2 rfl rfl

/-- C10: (a) every `orders` UPDATE that changes a row's status makes the
`add_status_history` trigger append an automatic history row with note
"Status changed automatically"; (b) consequently the admin status-update
route appends two history rows for one transition (the trigger row and its
own row); (c) so does the capture-payment route whenever the order was not
already `confirmed`. -/
theorem C10_auto_history_trigger_duplicates_entries :
    (∀ (db : DB) (oid : ℕ) (f : Order → Order) (o : Order),
        db.orders.filter (fun r => r.id == oid) = [o] →
        (∀ r, (f r).id = r.id) →
        (f o).status ≠ o.status →
        (applyOrdersUpdate db oid f).history
          = db.history ++
            [{ orderId := o.id
               status := (f o).status
               notes := "Status changed automatically"
               changedBy := none }]) ∧
    (∀ (db : DB) (oid : ℕ) (o : Order) (s notes : String) (st : OrderStatus) (adminId : ℕ),
        db.orders.filter (fun r => r.id == oid) = [o] →
        statusOfString s = some st →
        st ≠ o.status →
        (updateOrderStatusRoute db oid s notes adminId).2.history
          = db.history ++
            [{ orderId := oid
               status := st
               notes := "Status changed automatically"
               changedBy := none },
             { orderId := oid
               status := st
               notes := notes
               changedBy := some adminId }]) ∧
    (∀ (db : DB) (oid : ℕ) (o : Order) (info : PaymentInfo) (raw : String),
        db.orders.filter (fun r => r.id == oid) = [o] →
        o.status ≠ OrderStatus.confirmed →
        ¬ |info.amount - o.totalAmount| > 1 / 100 →
        (capturePayment db oid (some (info, raw))).2.history
          = db.history ++
            [{ orderId := oid
               status := OrderStatus.confirmed
               notes := "Status changed automatically"
               changedBy := none },
             { orderId := oid
               status := OrderStatus.confirmed
               notes := "Payment received and confirmed"
               changedBy := none }]) := by
  have trig : ∀ (db : DB) (oid : ℕ) (f : Order → Order) (o : Order),
      db.orders.filter (fun r => r.id == oid) = [o] →
      (∀ r, (f r).id = r.id) →
      (f o).status ≠ o.status →
      (applyOrdersUpdate db oid f).history
        = db.history ++
          [{ orderId := o.id
             status := (f o).status
             notes := "Status changed automatically"
             changedBy := none }] := by
    intro db oid f o H hf hchange
    have hauto := autoHistoryRows_single db.orders oid f o H
    rw [if_neg hchange] at hauto
    simp only [applyOrdersUpdate, hauto, hf o]
  refine ⟨trig, ?_, ?_⟩
  · intro db oid o s notes st adminId H hs hchange
    have hfind : findOrder db oid = some o := filter_single_find? _ _ _ H
    have hoid : o.id = oid := filter_single_id _ _ _ H
    have htrig := trig db oid (fun r => { r with status := st }) o H (fun r => rfl)
      (by simpa using hchange)
    simp only [updateOrderStatusRoute, hs, hfind]
    simp only [applyOrdersUpdate] at htrig ⊢
    rw [htrig]
    simp [hoid]
  · intro db oid o info raw H hstatus hamt
    have hfind : findOrder db oid = some o := filter_single_find? _ _ _ H
    have hoid : o.id = oid := filter_single_id _ _ _ H
    have htrig := trig db oid
      (fun r => { r with paymentStatus := PayStatus.paid
                         status := OrderStatus.confirmed }) o H (fun r => rfl)
      (Ne.symm hstatus)
    simp only [capturePayment, hfind]
    rw [if_neg hamt]
    simp only [applyOrdersUpdate] at htrig ⊢
    rw [htrig]
    simp [hoid]

/-- Witness for C10 at concrete inputs: the admin route moving the pending
sample order to `in_progress` records both the automatic and the manual
history rows. -/
theorem C10_auto_history_witness :
    (updateOrderStatusRoute sampleDB 1 "in_progress" "started" 3).2.history
      = sampleDB.history ++
        [{ orderId := 1
           status := OrderStatus.in_progress
           notes := "Status changed automatically"
           changedBy := none },
         { orderId := 1
           status := OrderStatus.in_progress
           notes := "started"
           changedBy := some 3 }] :=
  C10_auto_history_trigger_duplicates_entries.2.1 sampleDB 1 sampleOrderPending
    "in_progress" "started" OrderStatus.in_progress 3 rfl rfl (by decide)

/-- `handlePaymentDenied` (`src/unnamed/part_002`, lines 406-422), invoked by
the `PAYMENT.CAPTURE.DENIED` branch of `POST /webhook/paypal` (lines
368-371): `UPDATE payments SET status = 'failed', gateway_response = $2
WHERE payment_id = $3`.  It updates only existing `payments` rows matched by
the gateway's resource id; it inserts nothing and never touches the `orders`
table. -/
def handlePaymentDenied (db : DB) (resourceId : String) (raw : String) : DB :=
  { db with payments := db.payments.map (fun p =>
      if p.paymentId == resourceId then
        { p with status := PayStatus.failed, gatewayResponse := some raw }
      else p) }

/-- A pending payment attempt for the pending sample order, carrying the
gateway transaction id RES-9. -/
def pendingAttemptDB : DB :=
  { sampleDB with payments :=
      [{ orderId := 1
         paymentMethod := PayMethod.paypal
         paymentId := "RES-9"
         payerId := none
         amount := 450
         currency := "USD"
         status := PayStatus.pending
         gatewayResponse := none }] }

/-- Counterexample to C6: a `PAYMENT.CAPTURE.DENIED` webhook for gateway id
RES-9 marks the matching `payments` row `failed`, but the owning order's
payment status remains `pending` — the claim's "sets the owning order's
payment status to 'failed'" does not happen (no `orders` UPDATE exists in
the handler), and no new `payments` row is inserted either. -/
theorem C6_counterexample_order_payment_status_not_failed :
    ((handlePaymentDenied pendingAttemptDB "RES-9" "raw-denied").payments.map
        (fun p => p.status)) = [PayStatus.failed] ∧
    ((handlePaymentDenied pendingAttemptDB "RES-9" "raw-denied").orders.map
        (fun o => o.paymentStatus)) = [PayStatus.pending] ∧
    (handlePaymentDenied pendingAttemptDB "RES-9" "raw-denied").payments.length
      = pendingAttemptDB.payments.length := by
  exact ⟨rfl, rfl, rfl⟩

/-- C6 amended: on a gateway denial the webhook path sets the status of every
existing `payments` row whose gateway transaction id matches to `failed`
(storing the raw payload), inserts no new `payments` row, and leaves the
`orders` table entirely untouched — in particular the owning order's payment
status is not set to `failed`, and (as the claim correctly stated) its
fulfillment status is not advanced. -/
theorem C6_amended_denied_webhook_updates_payment_row_only
    (db : DB) (rid raw : String) :
    (handlePaymentDenied db rid raw).orders = db.orders ∧
    (handlePaymentDenied db rid raw).history = db.history ∧
    (handlePaymentDenied db rid raw).payments.length = db.payments.length ∧
    ∀ p ∈ db.payments, p.paymentId = rid →
      { p with status := PayStatus.failed, gatewayResponse := some raw }
        ∈ (handlePaymentDenied db rid raw).payments := by
  refine ⟨rfl, rfl, by simp [handlePaymentDenied], ?_⟩
  intro p hp hrid
  refine List.mem_map.mpr ⟨p, hp, ?_⟩
  rw [if_pos (by rw [hrid]; exact beq_self_eq_true rid)]

/-- Witness for the amended C6 at the concrete denied-webhook state. -/
theorem C6_amended_witness :
    (handlePaymentDenied pendingAttemptDB "RES-9" "raw-denied").orders
      = pendingAttemptDB.orders ∧
    { orderId := 1
      paymentMethod := PayMethod.paypal
      paymentId := "RES-9"
      payerId := none
      amount := 450
      currency := "USD"
      status := PayStatus.failed
      gatewayResponse := some "raw-denied" }
      ∈ (handlePaymentDenied pendingAttemptDB "RES-9" "raw-denied").payments := by
  have h := C6_amended_denied_webhook_updates_payment_row_only pendingAttemptDB
    "RES-9" "raw-denied"
  refine ⟨h.1, ?_⟩
  have hmem := h.2.2.2
    { orderId := 1
      paymentMethod := PayMethod.paypal
      paymentId := "RES-9"
      payerId := none
      amount := 450
      currency := "USD"
      status := PayStatus.pending
      gatewayResponse := none }
    (by simp [pendingAttemptDB, sampleDB]) rfl
  exact hmem

/-- PostgreSQL `LPAD(string, length, fill)` over character lists: pads on the
left with `fill` up to `length` — and, when the string is already longer than
`length`, TRUNCATES it on the right, keeping only the first `length`
characters. -/
def lpadChars (cs : List Char) (n : ℕ) (fill : Char) : List Char :=
  if n ≤ cs.length then cs.take n
  else List.replicate (n - cs.length) fill ++ cs

/-- The `::TEXT` rendering of a non-negative integer in decimal, most
significant digit first. -/
def decRepr (n : ℕ) : List Char :=
  if n = 0 then ['0']
  else ((Nat.digits 10 n).map (fun d => Char.ofNat (48 + d))).reverse

/-- `generate_tracking_id` from `schema.sql`:
`'SEO-' || TO_CHAR(NOW(), 'YYYYMMDD') || '-' ||
LPAD(nextval('orders_id_seq')::TEXT, 4, '0')`.
`ymd` is the `TO_CHAR` rendering of the current date and `seqVal` the value
drawn from the global `orders_id_seq` sequence — the very sequence that also
supplies the `orders.id` default, shared across all days. -/
def generate_tracking_id (ymd : List Char) (seqVal : ℕ) : List Char :=
  "SEO-".toList ++ ymd ++ "-".toList ++ lpadChars (decRepr seqVal) 4 '0'

/-- `nextval('orders_id_seq')`: yields the current value and advances. -/
def nextval (s : ℕ) : ℕ × ℕ := (s, s + 1)

/-- One `INSERT INTO orders` as far as identifiers are concerned: the `id`
column default draws `nextval('orders_id_seq')` once, then the
`BEFORE INSERT` trigger `set_tracking_id` draws `nextval` a second time
inside `generate_tracking_id`.  Returns `((id, tracking code), next sequence
state)`. -/
def insertOrderIds (s : ℕ) (ymd : List Char) : (ℕ × List Char) × ℕ :=
  let (idv, s1) := nextval s
  let (tv, s2) := nextval s1
  ((idv, generate_tracking_id ymd tv), s2)

/-- Reads a digit string (most significant first) back as the natural number
it denotes. -/
def decVal (cs : List Char) : ℕ :=
  Nat.ofDigits 10 (cs.reverse.map (fun c => c.toNat - 48))

/-! Supporting lemmas for the tracking-code development. -/

theorem lpadChars_length (cs : List Char) (n : ℕ) (fill : Char) :
    (lpadChars cs n fill).length = n := by
  unfold lpadChars
  split
  · rw [List.length_take]
    omega
  · rw [List.length_append, List.length_replicate]
    omega

theorem digit_char_inv : ∀ d, d < 10 → ((Char.ofNat (48 + d)).toNat - 48) = d := by
  decide

theorem digit_char_isDigit : ∀ d, d < 10 → (Char.ofNat (48 + d)).isDigit = true := by
  decide

theorem ofDigits_replicate_zero (b k : ℕ) :
    Nat.ofDigits b (List.replicate k 0) = 0 := by
  induction k with
  | zero => rfl
  | succ m ih => simp [List.replicate_succ, Nat.ofDigits_cons, ih]

theorem decVal_pad (k n : ℕ) :
    decVal (List.replicate k '0' ++ decRepr n) = n := by
  unfold decVal decRepr
  split
  · rename_i h0
    subst h0
    rw [List.reverse_append, List.reverse_replicate]
    simp only [List.reverse_cons, List.reverse_nil, List.nil_append, List.singleton_append,
      List.map_cons, List.map_replicate]
    rw [show ('0'.toNat - 48) = 0 from by decide, Nat.ofDigits_cons, ofDigits_replicate_zero]
  · rename_i h0
    rw [List.reverse_append, List.reverse_reverse, List.reverse_replicate, List.map_append,
      List.map_map, List.map_replicate]
    have hmap : (Nat.digits 10 n).map ((fun c => c.toNat - 48) ∘ (fun d => Char.ofNat (48 + d)))
        = Nat.digits 10 n := by
      rw [show ((Nat.digits 10 n).map ((fun c => c.toNat - 48) ∘ (fun d => Char.ofNat (48 + d))))
            = (Nat.digits 10 n).map (fun d => (Char.ofNat (48 + d)).toNat - 48) from rfl]
      have : ∀ d ∈ Nat.digits 10 n, ((Char.ofNat (48 + d)).toNat - 48) = d := by
        intro d hd
        exact digit_char_inv d (Nat.digits_lt_base (by norm_num) hd)
      rw [List.map_congr_left this, List.map_id']
    rw [hmap]
    have hzero : ('0'.toNat - 48) = 0 := by decide
    rw [hzero]
    rw [show ((Nat.ofDigits 10 (Nat.digits 10 n ++ List.replicate k 0) : ℕ))
          = Nat.ofDigits 10 (Nat.digits 10 n)
            + 10 ^ (Nat.digits 10 n).length * Nat.ofDigits 10 (List.replicate k 0) from by
      exact_mod_cast Nat.ofDigits_append]
    rw [ofDigits_replicate_zero, Nat.ofDigits_digits]
    ring

theorem digits_length_le_four (n : ℕ) (h : n < 10000) :
    (Nat.digits 10 n).length ≤ 4 := by
  by_cases h0 : n = 0
  · subst h0; simp
  · by_contra hlen
    push_neg at hlen
    have h1 := Nat.base_pow_length_digits_le 10 n (by norm_num) h0
    have h2 : (10 : ℕ) ^ 5 ≤ 10 ^ (Nat.digits 10 n).length :=
      Nat.pow_le_pow_right (by norm_num) hlen
    have h3 : (10 : ℕ) ^ 5 = 100000 := by norm_num
    omega

theorem decRepr_length_le (n : ℕ) (h : n < 10000) : (decRepr n).length ≤ 4 := by
  unfold decRepr
  split
  · simp
  · rw [List.length_reverse, List.length_map]
    exact digits_length_le_four n h

theorem lpadChars_decRepr_eq (n : ℕ) (h : n < 10000) :
    lpadChars (decRepr n) 4 '0'
      = List.replicate (4 - (decRepr n).length) '0' ++ decRepr n := by
  unfold lpadChars
  split
  · rename_i hle
    have hlen : (decRepr n).length = 4 := le_antisymm (decRepr_length_le n h) hle
    rw [hlen]
    simp [List.take_of_length_le hlen.le]
  · rfl

theorem decVal_lpad (n : ℕ) (h : n < 10000) :
    decVal (lpadChars (decRepr n) 4 '0') = n := by
  rw [lpadChars_decRepr_eq n h]
  exact decVal_pad _ n

theorem decRepr_mem_isDigit (n : ℕ) : ∀ c ∈ decRepr n, c.isDigit = true := by
  unfold decRepr
  split
  · intro c hc
    simp only [List.mem_singleton] at hc
    subst hc
    decide
  · intro c hc
    rw [List.mem_reverse] at hc
    obtain ⟨d, hd, rfl⟩ := List.mem_map.mp hc
    exact digit_char_isDigit d (Nat.digits_lt_base (by norm_num) hd)

theorem lpadChars_decRepr_isDigit (n : ℕ) :
    ∀ c ∈ lpadChars (decRepr n) 4 '0', c.isDigit = true := by
  unfold lpadChars
  split
  · intro c hc
    exact decRepr_mem_isDigit n c (List.take_subset _ _ hc)
  · intro c hc
    rw [List.mem_append] at hc
    rcases hc with hc | hc
    · rw [List.eq_of_mem_replicate hc]
      decide
    · exact decRepr_mem_isDigit n c hc

/-- Counterexample to C5: (i) collision — with the shared sequence at 12339,
two orders inserted on the same day receive the SAME tracking code (PostgreSQL
`LPAD(…, 4, '0')` truncates `'12340'` and `'12342'` both to `'1234'`), so
generated codes are not unique across orders; (ii) the suffix does not
restart per calendar day: starting from a fresh sequence, the first insert of
the NEXT day carries suffix 0004 — the continuation of the global sequence —
not 0001. -/
theorem C5_counterexample_truncated_collision_and_global_sequence :
    (insertOrderIds 12339 "20250131".toList).1.2
      = (insertOrderIds (insertOrderIds 12339 "20250131".toList).2 "20250131".toList).1.2 ∧
    (insertOrderIds 12339 "20250131".toList).1.1
      ≠ (insertOrderIds (insertOrderIds 12339 "20250131".toList).2 "20250131".toList).1.1 ∧
    (insertOrderIds (insertOrderIds 1 "20250130".toList).2 "20250131".toList).1.2
      = "SEO-20250131-0004".toList := by
  have d1 : Nat.digits 10 12340 = [0, 4, 3, 2, 1] := by norm_num
  have d2 : Nat.digits 10 12342 = [2, 4, 3, 2, 1] := by norm_num
  have d3 : Nat.digits 10 4 = [4] := by norm_num
  have e1 : decRepr 12340 = "12340".toList := by
    unfold decRepr
    rw [if_neg (by norm_num), d1]
    rfl
  have e2 : decRepr 12342 = "12342".toList := by
    unfold decRepr
    rw [if_neg (by norm_num), d2]
    rfl
  have e3 : decRepr 4 = "4".toList := by
    unfold decRepr
    rw [if_neg (by norm_num), d3]
    rfl
  refine ⟨?_, ?_, ?_⟩
  · show generate_tracking_id "20250131".toList 12340
      = generate_tracking_id "20250131".toList 12342
    unfold generate_tracking_id
    rw [e1, e2]
    rfl
  · decide
  · show generate_tracking_id "20250131".toList 4 = "SEO-20250131-0004".toList
    unfold generate_tracking_id
    rw [e3]
    rfl

/-- C5 amended: every generated tracking code has the shape
`SEO-` ++ date ++ `-` ++ suffix with a suffix of exactly four characters, all
digits; the suffix is the value drawn from the GLOBAL `orders_id_seq`
sequence (shared with order ids and never restarting per day), zero-padded to
four characters and truncated to its first four digits when longer.  As long
as the sequence value stays below 10000, the suffix still determines the
value (`decVal`), so codes of two 8-character dates coincide only for the
same date and the same sequence value; beyond 9999 the generator can emit
duplicates and only the UNIQUE constraint (which makes the colliding insert
fail) stands between them and the table. -/
theorem C5_amended_tracking_code_format_and_uniqueness_below_10000
    (ymd1 ymd2 : List Char) (s t : ℕ)
    (h1 : ymd1.length = 8) (h2 : ymd2.length = 8)
    (hs : s < 10000) (ht : t < 10000) :
    (generate_tracking_id ymd1 s).length = 17 ∧
    (∃ suffix, generate_tracking_id ymd1 s
        = "SEO-".toList ++ ymd1 ++ "-".toList ++ suffix ∧
      suffix.length = 4 ∧ (∀ c ∈ suffix, c.isDigit = true) ∧ decVal suffix = s) ∧
    (generate_tracking_id ymd1 s = generate_tracking_id ymd2 t
      ↔ (ymd1 = ymd2 ∧ s = t)) := by
  refine ⟨?_, ?_, ?_⟩
  · unfold generate_tracking_id
    simp only [List.length_append, lpadChars_length, h1]
    rfl
  · exact ⟨lpadChars (decRepr s) 4 '0', rfl, lpadChars_length _ _ _,
      lpadChars_decRepr_isDigit s, decVal_lpad s hs⟩
  · constructor
    · intro hEq
      unfold generate_tracking_id at hEq
      have hlen : (("SEO-".toList ++ ymd1) ++ "-".toList).length
          = (("SEO-".toList ++ ymd2) ++ "-".toList).length := by
        simp [h1, h2]
      obtain ⟨hleft, hpad⟩ := List.append_inj hEq hlen
      have hymd : ymd1 = ymd2 :=
        List.append_cancel_left (List.append_cancel_right hleft)
      have hval : decVal (lpadChars (decRepr s) 4 '0')
          = decVal (lpadChars (decRepr t) 4 '0') := by
        rw [hpad]
      rw [decVal_lpad s hs, decVal_lpad t ht] at hval
      exact ⟨hymd, hval⟩
    · rintro ⟨rfl, rfl⟩
      rfl

/-- Witness for the amended C5 at the spec's own example `SEO-20250131-0007`:
format facts for sequence value 7, and the injectivity instance 7 vs 9. -/
theorem C5_amended_witness :
    (generate_tracking_id "20250131".toList 7).length = 17 ∧
    (generate_tracking_id "20250131".toList 7 = generate_tracking_id "20250131".toList 9
      ↔ ("20250131".toList = "20250131".toList ∧ 7 = 9)) :=
  ⟨(C5_amended_tracking_code_format_and_uniqueness_below_10000
      "20250131".toList "20250131".toList 7 9 rfl rfl (by norm_num) (by norm_num)).1,
   (C5_amended_tracking_code_format_and_uniqueness_below_10000
      "20250131".toList "20250131".toList 7 9 rfl rfl (by norm_num) (by norm_num)).2.2⟩

/-- One cart entry of a `POST /test-order` / `POST /create-payment-intent`
request body. -/
structure CartItem where
  serviceId : String
  quantity : ℕ
  keywords : String
  deriving DecidableEq, Repr

/-- The customer object of those request bodies.  JavaScript truthiness of
`customer.name` / `customer.email` / `customer.website` is modelled as the
string being non-empty. -/
structure CustomerInput where
  name : String
  email : String
  website : String
  phone : Option String
  deriving DecidableEq, Repr

/-- The outcome of a handler that checked out a transactional connection
with `beginTransaction`: the HTTP status answered, whether the pooled
connection was given back (`commitTransaction` and `rollbackTransaction`
both release it in a `finally`; a plain `return res…` does not), and the
resulting database state. -/
structure HandlerResult where
  status : ℕ
  connectionReleased : Bool
  db : DB
  deriving DecidableEq, Repr

/-- The tier lookup shared by the order routes:
`SELECT st.*, s.name as service_name FROM service_tiers st JOIN services s ON
st.service_id = s.id WHERE st.id = $1 AND st.is_active = true AND
s.is_active = true`. -/
def findTier (db : DB) (sid : String) : Option ServiceTier :=
  db.tiers.find? (fun t => t.id == sid && t.isActive && t.serviceActive)

/-- The customer block of `POST /test-order` (lines 459-486): look the
customer up by email and reuse the id, otherwise insert a new row (name,
email, website, phone).  Unlike `POST /create`, the existing customer is not
updated. -/
def upsertTestCustomer (db : DB) (c : CustomerInput) : DB × ℕ :=
  match db.customers.find? (fun r => r.email == c.email) with
  | some r => (db, r.id)
  | none =>
    let cid := db.customerSeq
    ({ db with
        customers := db.customers ++
          [({ id := cid, name := c.name, email := c.email
              website := c.website, phone := c.phone } : Customer)]
        customerSeq := cid + 1 }, cid)

/-- One iteration of the `POST /test-order` cart loop (lines 540-565): insert
the order (status `confirmed`, payment status `paid`, id and tracking code
drawn from `orders_id_seq`) and its `payments` row
(`payment_id = 'TEST-' + tracking`, no payload). -/
def insertTestOrder (db : DB) (ymd : List Char) (cid : ℕ) (tier : ServiceTier)
    (item : CartItem) : DB :=
  let ids := insertOrderIds db.orderSeq ymd
  let itemTotal := tier.price * item.quantity
  { db with
    orders := db.orders ++
      [({ id := ids.1.1
          trackingId := ids.1.2
          customerId := cid
          serviceTierId := tier.id
          serviceName := tier.serviceName
          serviceTierName := tier.name
          servicePrice := tier.price
          deliveryDays := tier.deliveryDays
          keywords := item.keywords
          quantity := item.quantity
          totalAmount := itemTotal
          status := OrderStatus.confirmed
          paymentStatus := PayStatus.paid } : Order)]
    payments := db.payments ++
      [({ orderId := ids.1.1
          paymentMethod := PayMethod.paypal
          paymentId := "TEST-" ++ String.mk ids.1.2
          payerId := none
          amount := itemTotal
          currency := "USD"
          status := PayStatus.paid
          gatewayResponse := none } : Payment)]
    orderSeq := ids.2 }

/-- The `POST /test-order` cart loop: an unknown/inactive tier rolls the
whole transaction back (releasing the connection) and answers 400; an empty
remainder commits (releasing the connection) and answers 200.  `db0` is the
state at `beginTransaction`, restored by the rollback. -/
def processTestCart (ymd : List Char) (db0 : DB) (cid : ℕ) :
    List CartItem → DB → HandlerResult
  | [], db => { status := 200, connectionReleased := true, db := db }
  | item :: rest, db =>
    match findTier db item.serviceId with
    | none => { status := 400, connectionReleased := true, db := db0 }
    | some tier => processTestCart ymd db0 cid rest (insertTestOrder db ymd cid tier item)

/-- The `POST /test-order` handler (`src/unnamed/part_002`, lines 425-664).
It calls `beginTransaction` first; the cart-shape check (lines 431-436) and
the two customer checks (lines 439-451) then `return res.status(400)`
WITHOUT any rollback — on those paths the pooled connection is never
released.  Only after them do the customer upsert, the cart loop and the
commit/rollback run. -/
def testOrderRoute (db : DB) (ymd : List Char) (cart : Option (List CartItem))
    (customer : CustomerInput) : HandlerResult :=
  match cart with
  | none => { status := 400, connectionReleased := false, db := db }
  | some items =>
    if items.isEmpty then
      { status := 400, connectionReleased := false, db := db }
    else if customer.name = "" || customer.email = "" || customer.website = "" then
      { status := 400, connectionReleased := false, db := db }
    else if customer.name.length < 2 || customer.name.length > 255 then
      { status := 400, connectionReleased := false, db := db }
    else
      let upserted := upsertTestCustomer db customer
      processTestCart ymd db upserted.2 items upserted.1

/-- The total-computation loop of `POST /create-payment-intent`
(lines 680-716): resolve each cart item's tier, failing the whole request on
an unknown tier. -/
def computeCartTotal (db : DB) : List CartItem → Option ℚ
  | [] => some 0
  | item :: rest =>
    match findTier db item.serviceId with
    | none => none
    | some tier =>
      match computeCartTotal db rest with
      | none => none
      | some t => some (tier.price * item.quantity + t)

/-- The `POST /create-payment-intent` handler (lines 667-747).  It calls
`beginTransaction`, then the cart-shape check (lines 673-678) `return`s 400
WITHOUT rollback — connection not released.  The loop only reads; an unknown
tier rolls back (released) with 400; otherwise the handler rolls back anyway
(line 718, released) before calling Stripe and answering 200.  The database
is never modified. -/
def createPaymentIntentRoute (db : DB) (cart : Option (List CartItem)) : HandlerResult :=
  match cart with
  | none => { status := 400, connectionReleased := false, db := db }
  | some items =>
    if items.isEmpty then
      { status := 400, connectionReleased := false, db := db }
    else
      match computeCartTotal db items with
      | none => { status := 400, connectionReleased := true, db := db }
      | some _ => { status := 200, connectionReleased := true, db := db }

/-- A valid customer body for the test-order route. -/
def sampleCustomerInput : CustomerInput :=
  { name := "John Smith", email := "john.smith@example.com"
    website := "https://johnsmith.com", phone := none }

/-- A database whose catalog holds the active `pbn-basic` tier. -/
def tierDB : DB :=
  { sampleDB with tiers :=
      [{ id := "pbn-basic", serviceName := "PBN Backlinks Services", name := "Basic"
         price := 100, deliveryDays := 7, isActive := true, serviceActive := true }] }

/-- C8 (code bug): the early validation `return`s of `POST /test-order`
(missing/empty cart, incomplete customer) and of
`POST /create-payment-intent` (missing cart) answer 400 while the pooled
connection checked out by `beginTransaction` is still held — no rollback, no
release.  The sibling paths in the very same handlers do release: an
unknown-tier cart item rolls back (released, 400) and a valid cart commits
(released, 200). -/
theorem C8_early_validation_returns_leak_the_connection :
    (testOrderRoute tierDB "20250131".toList none sampleCustomerInput).status = 400 ∧
    (testOrderRoute tierDB "20250131".toList none sampleCustomerInput).connectionReleased
      = false ∧
    (testOrderRoute tierDB "20250131".toList (some []) sampleCustomerInput).connectionReleased
      = false ∧
    (testOrderRoute tierDB "20250131".toList
        (some [{ serviceId := "pbn-basic", quantity := 1, keywords := "kw" }])
        { sampleCustomerInput with name := "" }).connectionReleased = false ∧
    (createPaymentIntentRoute tierDB none).status = 400 ∧
    (createPaymentIntentRoute tierDB none).connectionReleased = false ∧
    (testOrderRoute tierDB "20250131".toList
        (some [{ serviceId := "no-such-tier", quantity := 1, keywords := "kw" }])
        sampleCustomerInput).connectionReleased = true ∧
    (testOrderRoute tierDB "20250131".toList
        (some [{ serviceId := "no-such-tier", quantity := 1, keywords := "kw" }])
        sampleCustomerInput).status = 400 ∧
    (testOrderRoute tierDB "20250131".toList
        (some [{ serviceId := "pbn-basic", quantity := 1, keywords := "kw" }])
        sampleCustomerInput).connectionReleased = true ∧
    (testOrderRoute tierDB "20250131".toList
        (some [{ serviceId := "pbn-basic", quantity := 1, keywords := "kw" }])
        sampleCustomerInput).status = 200 := by
  refine ⟨rfl, rfl, rfl, rfl, rfl, rfl, rfl, rfl, rfl, rfl⟩

/-- The `service_tiers` seed of `schema.sql` (lines 177-210), each row joined
with its parent service's name as the routers select it.  Every seeded price
is a whole number of dollars (the `.00` decimals are written as integers);
`features`/`is_popular` and the service descriptions are not consulted by
the order routes and are omitted.  No code in the repository inserts or
updates `service_tiers`, so these are all the valid tiers. -/
def serviceTiersSeed : List ServiceTier :=
  [{ id := "monthly-seo-basic", serviceName := "Monthly SEO Packages"
     name := "Basic Monthly", price := 200, deliveryDays := 30
     isActive := true, serviceActive := true },
   { id := "monthly-seo-standard", serviceName := "Monthly SEO Packages"
     name := "Standard Monthly", price := 450, deliveryDays := 30
     isActive := true, serviceActive := true },
   { id := "monthly-seo-premium", serviceName := "Monthly SEO Packages"
     name := "Premium Monthly", price := 800, deliveryDays := 30
     isActive := true, serviceActive := true },
   { id := "pbn-basic", serviceName := "PBN Backlinks Services"
     name := "Basic", price := 100, deliveryDays := 7
     isActive := true, serviceActive := true },
   { id := "pbn-standard", serviceName := "PBN Backlinks Services"
     name := "Standard", price := 200, deliveryDays := 7
     isActive := true, serviceActive := true },
   { id := "pbn-premium", serviceName := "PBN Backlinks Services"
     name := "Premium", price := 1000, deliveryDays := 7
     isActive := true, serviceActive := true },
   { id := "pbn-silver", serviceName := "PBN Backlinks Services"
     name := "Silver", price := 2000, deliveryDays := 14
     isActive := true, serviceActive := true },
   { id := "pbn-platinum", serviceName := "PBN Backlinks Services"
     name := "Platinum", price := 4000, deliveryDays := 21
     isActive := true, serviceActive := true },
   { id := "pbn-deluxe", serviceName := "PBN Backlinks Services"
     name := "Deluxe", price := 6000, deliveryDays := 30
     isActive := true, serviceActive := true },
   { id := "guest-bronze-gb-1", serviceName := "Guest Post Services"
     name := "Bronze GB-1", price := 25, deliveryDays := 7
     isActive := true, serviceActive := true },
   { id := "guest-silver-gb-5", serviceName := "Guest Post Services"
     name := "Silver GB-5", price := 100, deliveryDays := 10
     isActive := true, serviceActive := true },
   { id := "guest-bronze-gb-10", serviceName := "Guest Post Services"
     name := "Bronze GB-10", price := 180, deliveryDays := 14
     isActive := true, serviceActive := true },
   { id := "guest-silver-gb-20", serviceName := "Guest Post Services"
     name := "Silver GB-20", price := 270, deliveryDays := 21
     isActive := true, serviceActive := true },
   { id := "id-pbn-pro-silver", serviceName := "Id PBN Post Services"
     name := "Pro Silver", price := 70, deliveryDays := 7
     isActive := true, serviceActive := true },
   { id := "id-pbn-pro-platinum", serviceName := "Id PBN Post Services"
     name := "Pro Platinum", price := 160, deliveryDays := 10
     isActive := true, serviceActive := true },
   { id := "id-pbn-pro-deluxe", serviceName := "Id PBN Post Services"
     name := "Pro Deluxe", price := 300, deliveryDays := 14
     isActive := true, serviceActive := true },
   { id := "sidebar-pbn-basic", serviceName := "Sidebar PBN Backlinks Services"
     name := "Basic", price := 150, deliveryDays := 7
     isActive := true, serviceActive := true },
   { id := "sidebar-pbn-booster", serviceName := "Sidebar PBN Backlinks Services"
     name := "Booster", price := 300, deliveryDays := 7
     isActive := true, serviceActive := true },
   { id := "sidebar-pbn-ranker", serviceName := "Sidebar PBN Backlinks Services"
     name := "Ranker Package", price := 600, deliveryDays := 7
     isActive := true, serviceActive := true },
   { id := "weekly-silver", serviceName := "Weekly Package Services"
     name := "Silver", price := 60, deliveryDays := 7
     isActive := true, serviceActive := true },
   { id := "weekly-gold", serviceName := "Weekly Package Services"
     name := "Gold", price := 90, deliveryDays := 7
     isActive := true, serviceActive := true },
   { id := "weekly-platinum", serviceName := "Weekly Package Services"
     name := "Platinum", price := 140, deliveryDays := 7
     isActive := true, serviceActive := true }]

/-- `x` is exactly representable as a finite IEEE-754 binary64 value: an
integer significand of magnitude below 2^53 times a power of two (the
amounts here are far inside the exponent range). -/
def ReprDouble (x : ℚ) : Prop :=
  ∃ (m : ℤ) (e : ℤ), |m| < 2 ^ 53 ∧ x = (m : ℚ) * (2 : ℚ) ^ e

/-- A correctly-rounding binary64 multiplication, the semantics of the
JavaScript `*` on numbers: whenever the exact product is representable,
round-to-nearest returns it exactly. -/
def CorrectMul (mul : ℚ → ℚ → ℚ) : Prop :=
  ∀ a b : ℚ, ReprDouble (a * b) → mul a b = a * b

/-- A correctly-rounding text-to-binary64 conversion — the implicit
JavaScript coercion applied to the `NUMERIC` column value (which the
database driver delivers as a decimal string): representable values convert
exactly. -/
def CorrectParse (parse : ℚ → ℚ) : Prop :=
  ∀ x : ℚ, ReprDouble x → parse x = x

/-- The columns of the `INSERT INTO orders` of `POST /create` (lines 84-99)
that derive from the tier and the request. -/
structure NewOrderRow where
  serviceTierId : String
  serviceName : String
  serviceTierName : String
  servicePrice : ℚ
  deliveryDays : ℕ
  keywords : String
  quantity : ℕ
  totalAmount : ℚ
  deriving DecidableEq, Repr

/-- The order row built by `POST /create` (lines 58-99): the snapshot columns
(`service_name`, `service_tier_name`, `service_price`, `delivery_days`)
receive the tier's fields unchanged, and `total_amount` is the JavaScript
product `serviceTier.price * quantity` — the binary64 multiplication `mul`
of the string-coerced price `parse tier.price` by the quantity. -/
def createOrderRow (parse : ℚ → ℚ) (mul : ℚ → ℚ → ℚ) (tier : ServiceTier)
    (keywords : String) (quantity : ℕ) : NewOrderRow :=
  { serviceTierId := tier.id
    serviceName := tier.serviceName
    serviceTierName := tier.name
    servicePrice := tier.price
    deliveryDays := tier.deliveryDays
    keywords := keywords
    quantity := quantity
    totalAmount := mul (parse tier.price) (quantity : ℚ) }

/-- Every seeded price is a natural number of dollars, at most 6000. -/
theorem seed_prices_integral :
    ∀ t ∈ serviceTiersSeed, ∃ n : ℕ, t.price = (n : ℚ) ∧ n ≤ 6000 := by
  intro t ht
  simp only [serviceTiersSeed] at ht
  fin_cases ht <;>
    first
      | ((refine ⟨25, ?_, ?_⟩ <;> norm_num); done)
      | ((refine ⟨60, ?_, ?_⟩ <;> norm_num); done)
      | ((refine ⟨70, ?_, ?_⟩ <;> norm_num); done)
      | ((refine ⟨90, ?_, ?_⟩ <;> norm_num); done)
      | ((refine ⟨100, ?_, ?_⟩ <;> norm_num); done)
      | ((refine ⟨140, ?_, ?_⟩ <;> norm_num); done)
      | ((refine ⟨150, ?_, ?_⟩ <;> norm_num); done)
      | ((refine ⟨160, ?_, ?_⟩ <;> norm_num); done)
      | ((refine ⟨180, ?_, ?_⟩ <;> norm_num); done)
      | ((refine ⟨200, ?_, ?_⟩ <;> norm_num); done)
      | ((refine ⟨270, ?_, ?_⟩ <;> norm_num); done)
      | ((refine ⟨300, ?_, ?_⟩ <;> norm_num); done)
      | ((refine ⟨450, ?_, ?_⟩ <;> norm_num); done)
      | ((refine ⟨600, ?_, ?_⟩ <;> norm_num); done)
      | ((refine ⟨800, ?_, ?_⟩ <;> norm_num); done)
      | ((refine ⟨1000, ?_, ?_⟩ <;> norm_num); done)
      | ((refine ⟨2000, ?_, ?_⟩ <;> norm_num); done)
      | ((refine ⟨4000, ?_, ?_⟩ <;> norm_num); done)
      | ((refine ⟨6000, ?_, ?_⟩ <;> norm_num); done)

/-- Natural numbers up to 600000 are exactly representable binary64 values. -/
theorem reprDouble_of_nat (n : ℕ) (h : n ≤ 600000) : ReprDouble (n : ℚ) := by
  refine ⟨(n : ℤ), 0, ?_, ?_⟩
  · rw [abs_of_nonneg (by positivity)]
    have h53 : (600000 : ℤ) < 2 ^ 53 := by norm_num
    omega
  · rw [zpow_zero, mul_one]
    norm_num

/-- C7: for every valid (seeded) tier and every quantity in 1..100, the
total computed by the order-creation route equals price × quantity exactly —
even though the JavaScript arithmetic is binary64, the product of a whole
catalog price (≤ 6000) and a quantity ≤ 100 is an integer below 2^53 and
therefore carries no floating-point rounding error — and the denormalized
snapshot columns store the tier's name, tier name, unit price and delivery
days verbatim. -/
theorem C7_total_exact_and_snapshot_verbatim
    (parse : ℚ → ℚ) (mul : ℚ → ℚ → ℚ)
    (hparse : CorrectParse parse) (hmul : CorrectMul mul) :
    ∀ t ∈ serviceTiersSeed, ∀ (kw : String) (q : ℕ), 1 ≤ q → q ≤ 100 →
      (createOrderRow parse mul t kw q).totalAmount = t.price * q ∧
      (createOrderRow parse mul t kw q).servicePrice = t.price ∧
      (createOrderRow parse mul t kw q).serviceName = t.serviceName ∧
      (createOrderRow parse mul t kw q).serviceTierName = t.name ∧
      (createOrderRow parse mul t kw q).deliveryDays = t.deliveryDays := by
  intro t ht kw q hq1 hq100
  obtain ⟨n, hn, hn6000⟩ := seed_prices_integral t ht
  have hprice : ReprDouble t.price := by
    rw [hn]
    exact reprDouble_of_nat n (by omega)
  have hprod : ReprDouble (t.price * q) := by
    rw [hn]
    rw [show ((n : ℚ) * q) = ((n * q : ℕ) : ℚ) from by push_cast; ring]
    exact reprDouble_of_nat (n * q) (by
      calc n * q ≤ 6000 * 100 := Nat.mul_le_mul hn6000 hq100
        _ = 600000 := by norm_num)
  refine ⟨?_, rfl, rfl, rfl, rfl⟩
  show mul (parse t.price) (q : ℚ) = t.price * q
  rw [hparse t.price hprice, hmul t.price (q : ℚ) hprod]

/-- Witness for C7: instantiating the rounding model with exact arithmetic
(which is correctly rounding) on the Standard Monthly tier at quantity 3. -/
theorem C7_total_exact_witness :
    (createOrderRow (fun x => x) (fun a b => a * b)
        { id := "monthly-seo-standard", serviceName := "Monthly SEO Packages"
          name := "Standard Monthly", price := 450, deliveryDays := 30
          isActive := true, serviceActive := true } "seo growth" 3).totalAmount
      = (450 : ℚ) * 3 ∧
    (createOrderRow (fun x => x) (fun a b => a * b)
        { id := "monthly-seo-standard", serviceName := "Monthly SEO Packages"
          name := "Standard Monthly", price := 450, deliveryDays := 30
          isActive := true, serviceActive := true } "seo growth" 3).servicePrice
      = (450 : ℚ) := by
  have h := C7_total_exact_and_snapshot_verbatim (fun x => x) (fun a b => a * b)
    (fun x _ => rfl) (fun a b _ => rfl)
    { id := "monthly-seo-standard", serviceName := "Monthly SEO Packages"
      name := "Standard Monthly", price := 450, deliveryDays := 30
      isActive := true, serviceActive := true }
    (by simp [serviceTiersSeed]) "seo growth" 3 (by norm_num) (by norm_num)
  exact ⟨by simpa using h.1, by simpa using h.2.1⟩

end SeoServer
